import Mathlib

/-!
# Verification of the film catalog pagination and caching service

Shallow embedding of the repository `fastapi_theory` (FastAPI service exposing
read-only film lookups backed by Elasticsearch with a Redis cache layer).

Embedded modules:
* `src/models/film.py`, `src/models/mixins.py` — the `Film` pydantic model,
  its JSON (de)serialization including field aliases (`populate_by_name`);
* `src/utils/formatters.py` — `SortFormatter` and `QueryFormatter`;
* `src/services/film.py` — `FilmService`: entity cache-aside lookup
  (`get_by_uuid`) and the cursor-cached paginator (`get_page`);
* `src/api/v1/films.py` — the response/404 logic of the list endpoints.

External collaborators (Elasticsearch, Redis) are modelled through the exact
operations the service calls: `search(from_|search_after, sort, size, query)`,
`get(index, id)`, `redis.get/set/exists`.  JSON values travelling between the
service, the cache and the engine are modelled by an explicit `Json` type;
Python floats are modelled as exact rationals.  Python exceptions are modelled
with `Except`.
-/

/- JSON values (the payloads orjson / pydantic read and write).  Mutual with
explicit array and object spines because Lean's `deriving` does not handle the
nested occurrences. -/
mutual

inductive Json where
  | str (s : String)
  | num (q : Rat)
  | null
  | arr (elems : JArr)
  | obj (fields : JObj)

inductive JArr where
  | nil
  | cons (hd : Json) (tl : JArr)

inductive JObj where
  | nil
  | cons (key : String) (val : Json) (tl : JObj)

end

mutual

def Json.beq : Json → Json → Bool
  | .str a, .str b => decide (a = b)
  | .num a, .num b => decide (a = b)
  | .null, .null => true
  | .arr a, .arr b => JArr.beq a b
  | .obj a, .obj b => JObj.beq a b
  | _, _ => false

def JArr.beq : JArr → JArr → Bool
  | .nil, .nil => true
  | .cons h t, .cons h2 t2 => Json.beq h h2 && JArr.beq t t2
  | _, _ => false

def JObj.beq : JObj → JObj → Bool
  | .nil, .nil => true
  | .cons k v t, .cons k2 v2 t2 => decide (k = k2) && Json.beq v v2 && JObj.beq t t2
  | _, _ => false

end

mutual

theorem Json.eq_of_beq : ∀ {a b : Json}, Json.beq a b = true → a = b
  | .str _, .str _, h => by
    simp only [Json.beq, decide_eq_true_eq] at h; exact congrArg Json.str h
  | .num _, .num _, h => by
    simp only [Json.beq, decide_eq_true_eq] at h; exact congrArg Json.num h
  | .null, .null, _ => rfl
  | .arr a, .arr b, h => congrArg Json.arr (JArr.eq_of_beq_arr h)
  | .obj a, .obj b, h => congrArg Json.obj (JObj.eq_of_beq_obj h)

theorem JArr.eq_of_beq_arr : ∀ {a b : JArr}, JArr.beq a b = true → a = b
  | .nil, .nil, _ => rfl
  | .cons h1 t1, .cons h2 t2, h => by
    simp only [JArr.beq, Bool.and_eq_true] at h
    rw [Json.eq_of_beq h.1, JArr.eq_of_beq_arr h.2]

theorem JObj.eq_of_beq_obj : ∀ {a b : JObj}, JObj.beq a b = true → a = b
  | .nil, .nil, _ => rfl
  | .cons k1 v1 t1, .cons k2 v2 t2, h => by
    simp only [JObj.beq, Bool.and_eq_true, decide_eq_true_eq] at h
    rw [h.1.1, Json.eq_of_beq h.1.2, JObj.eq_of_beq_obj h.2]

end

mutual

theorem Json.beq_refl : ∀ (a : Json), Json.beq a a = true
  | .str _ => by simp [Json.beq]
  | .num _ => by simp [Json.beq]
  | .null => rfl
  | .arr a => JArr.beq_refl_arr a
  | .obj a => JObj.beq_refl_obj a

theorem JArr.beq_refl_arr : ∀ (a : JArr), JArr.beq a a = true
  | .nil => rfl
  | .cons h t => by simp [JArr.beq, Json.beq_refl h, JArr.beq_refl_arr t]

theorem JObj.beq_refl_obj : ∀ (a : JObj), JObj.beq a a = true
  | .nil => rfl
  | .cons k v t => by simp [JObj.beq, Json.beq_refl v, JObj.beq_refl_obj t]

end

instance : DecidableEq Json := fun a b =>
  if h : Json.beq a b = true then isTrue (Json.eq_of_beq h)
  else isFalse (fun he => h (he ▸ Json.beq_refl a))

instance : DecidableEq JArr := fun a b =>
  if h : JArr.beq a b = true then isTrue (JArr.eq_of_beq_arr h)
  else isFalse (fun he => h (he ▸ JArr.beq_refl_arr a))

/-- Converts a Lean list of JSON values to a JSON array spine. -/
def JArr.ofList : List Json → JArr
  | [] => .nil
  | j :: js => .cons j (JArr.ofList js)

/-- Converts a JSON array spine back to a Lean list. -/
def JArr.toList : JArr → List Json
  | .nil => []
  | .cons j js => j :: JArr.toList js

theorem JArr.toList_ofList : ∀ (l : List Json), (JArr.ofList l).toList = l
  | [] => rfl
  | j :: js => by simp only [JArr.ofList, JArr.toList, JArr.toList_ofList js]

/-- First value stored under `key` in a JSON object (Python dict keys are
unique, so first = only). -/
def JObj.find? (key : String) : JObj → Option Json
  | .nil => none
  | .cons k v t => if k = key then some v else JObj.find? key t

/-- The sixteen characters allowed in the hexadecimal groups of the canonical
(lowercase) textual form of a UUID, as produced by Python's `str(uuid)`. -/
def hexDigits : List Char := "0123456789abcdef".toList

/-- Canonical textual form of a version-4 UUID: 36 characters,
`xxxxxxxx-xxxx-4xxx-xxxx-xxxxxxxxxxxx` with lowercase hex digits.  This is the
form `str(uuid)` yields and (up to normalisation) what pydantic's `UUID4`
validation accepts. -/
def uuidCanonical (s : String) : Bool :=
  let cs := s.toList
  decide (cs.length = 36) &&
    (List.range 36).all fun i =>
      let c := cs.getD i ' '
      if i = 8 ∨ i = 13 ∨ i = 18 ∨ i = 23 then c == '-'
      else if i = 14 then c == '4'
      else hexDigits.contains c

/-- A value of pydantic type `UUID4`: a string in canonical UUID form. -/
def UUIDv : Type := { s : String // uuidCanonical s = true }

instance : DecidableEq UUIDv := Subtype.instDecidableEq

/-- `str(uuid)` — the canonical string of the UUID. -/
def UUIDv.str (u : UUIDv) : String := u.val

/-- pydantic validation of a `UUID4` field from a JSON string. -/
def parseUuid (s : String) : Option UUIDv :=
  if h : uuidCanonical s = true then some ⟨s, h⟩ else none

theorem parseUuid_str (u : UUIDv) : parseUuid u.str = some u := by
  unfold parseUuid UUIDv.str
  rw [dif_pos u.property]
  rfl

/-! ## The Film model (`src/models/film.py`, `src/models/mixins.py`)

`UUIDMixin` contributes field `uuid : UUID4` with `alias="id"` and
`populate_by_name=True`; `PersonInline` has `full_name : str` with
`alias="name"`.  `ActorInline` / `WriterInline` / `DirectorInline` subclass
`PersonInline` without adding fields, so a single Lean structure models all
three.  Python `float` is modelled as an exact rational. -/

structure GenreInline where
  uuid : UUIDv
  name : String
  deriving DecidableEq

structure PersonInline where
  uuid : UUIDv
  full_name : String
  deriving DecidableEq

structure Film where
  uuid : UUIDv
  title : String
  description : Option String
  imdb_rating : Rat
  genre : List GenreInline
  actors : Option (List PersonInline)
  writers : Option (List PersonInline)
  directors : Option (List PersonInline)
  deriving DecidableEq

/-- `model_dump_json` of an optional string field (`None` becomes `null`). -/
def optStrJson : Option String → Json
  | none => .null
  | some s => .str s

def GenreInline.toJson (g : GenreInline) : Json :=
  .obj (.cons "uuid" (.str g.uuid.str) (.cons "name" (.str g.name) .nil))

def PersonInline.toJson (p : PersonInline) : Json :=
  .obj (.cons "uuid" (.str p.uuid.str) (.cons "full_name" (.str p.full_name) .nil))

/-- `model_dump_json` of an optional list of inline persons. -/
def optPersonsJson : Option (List PersonInline) → Json
  | none => .null
  | some l => .arr (JArr.ofList (l.map PersonInline.toJson))

/-- `Film.model_dump_json()` (pydantic v2 serializes by field name, not by
alias, and includes `None` fields as `null`). -/
def Film.toJson (f : Film) : Json :=
  .obj (.cons "uuid" (.str f.uuid.str)
       (.cons "title" (.str f.title)
       (.cons "description" (optStrJson f.description)
       (.cons "imdb_rating" (.num f.imdb_rating)
       (.cons "genre" (.arr (JArr.ofList (f.genre.map GenreInline.toJson)))
       (.cons "actors" (optPersonsJson f.actors)
       (.cons "writers" (optPersonsJson f.writers)
       (.cons "directors" (optPersonsJson f.directors) .nil))))))))

def jsonObj? : Json → Option JObj
  | .obj o => some o
  | _ => none

def jsonStr? : Json → Option String
  | .str s => some s
  | _ => none

/-- pydantic validation with `populate_by_name=True`: a field with an alias is
populated from the alias key when present, else from the field-name key. -/
def fieldByAliasOrName (o : JObj) (aliasKey nameKey : String) : Option Json :=
  match o.find? aliasKey with
  | some v => some v
  | none => o.find? nameKey

/-- Validates every element of a JSON array; any failure fails the whole
field (pydantic raises `ValidationError` on the first bad element). -/
def decodeList (f : Json → Option α) : List Json → Option (List α)
  | [] => some []
  | j :: js =>
    match f j, decodeList f js with
    | some a, some rest => some (a :: rest)
    | _, _ => none

/-- Optional string field: absent or `null` gives the default `None`. -/
def decodeOptStrField (o : JObj) (key : String) : Option (Option String) :=
  match o.find? key with
  | none => some none
  | some .null => some none
  | some (.str s) => some (some s)
  | some _ => none

/-- `imdb_rating : float = 0.0` — absent uses the default. -/
def decodeRatingField (o : JObj) : Option Rat :=
  match o.find? "imdb_rating" with
  | none => some 0
  | some (.num q) => some q
  | some _ => none

/-- `GenreInline(**d)` / `model_validate`: `uuid` from `"id"` or `"uuid"`. -/
def GenreInline.fromJson (j : Json) : Option GenreInline := do
  let o ← jsonObj? j
  let u ← parseUuid (← jsonStr? (← fieldByAliasOrName o "id" "uuid"))
  let n ← jsonStr? (← o.find? "name")
  pure ⟨u, n⟩

/-- `PersonInline` validation: `full_name` from `"name"` or `"full_name"`. -/
def PersonInline.fromJson (j : Json) : Option PersonInline := do
  let o ← jsonObj? j
  let u ← parseUuid (← jsonStr? (← fieldByAliasOrName o "id" "uuid"))
  let fn ← jsonStr? (← fieldByAliasOrName o "name" "full_name")
  pure ⟨u, fn⟩

/-- Optional person-list field: absent or `null` gives `None`. -/
def decodeOptPersonsField (o : JObj) (key : String) : Option (Option (List PersonInline)) :=
  match o.find? key with
  | none => some none
  | some .null => some none
  | some (.arr a) => (decodeList PersonInline.fromJson a.toList).map some
  | some _ => none

/-- `Film.model_validate_json` / `Film(**source)`: validation of a film from a
JSON document; `none` models a raised `ValidationError`. -/
def Film.fromJson (j : Json) : Option Film := do
  let o ← jsonObj? j
  let u ← parseUuid (← jsonStr? (← fieldByAliasOrName o "id" "uuid"))
  let title ← jsonStr? (← o.find? "title")
  let description ← decodeOptStrField o "description"
  let rating ← decodeRatingField o
  let genre ←
    match o.find? "genre" with
    | some (.arr a) => decodeList GenreInline.fromJson a.toList
    | _ => none
  let actors ← decodeOptPersonsField o "actors"
  let writers ← decodeOptPersonsField o "writers"
  let directors ← decodeOptPersonsField o "directors"
  pure { uuid := u, title := title, description := description, imdb_rating := rating,
         genre := genre, actors := actors, writers := writers, directors := directors }

theorem decodeList_map (f : Json → Option α) (enc : α → Json)
    (h : ∀ a, f (enc a) = some a) : ∀ l : List α, decodeList f (l.map enc) = some l
  | [] => rfl
  | a :: l => by
    simp only [List.map_cons, decodeList, h a, decodeList_map f enc h l]

theorem GenreInline.fromJson_toJson_genre (g : GenreInline) :
    GenreInline.fromJson (GenreInline.toJson g) = some g := by
  simp only [GenreInline.toJson, GenreInline.fromJson, jsonObj?, fieldByAliasOrName,
    JObj.find?, jsonStr?, String.reduceEq, reduceIte, parseUuid_str,
    Option.bind_eq_bind, Option.some_bind]
  rfl

theorem PersonInline.fromJson_toJson_person (p : PersonInline) :
    PersonInline.fromJson (PersonInline.toJson p) = some p := by
  simp only [PersonInline.toJson, PersonInline.fromJson, jsonObj?, fieldByAliasOrName,
    JObj.find?, jsonStr?, String.reduceEq, reduceIte, parseUuid_str,
    Option.bind_eq_bind, Option.some_bind]
  rfl

set_option maxHeartbeats 1600000 in
/-- Serialize-then-validate is the identity on films. -/
theorem Film.fromJson_toJson (f : Film) : Film.fromJson (Film.toJson f) = some f := by
  obtain ⟨u, t, d, r, g, a, w, dr⟩ := f
  cases d <;> cases a <;> cases w <;> cases dr <;>
    simp only [Film.toJson, Film.fromJson, jsonObj?, fieldByAliasOrName, JObj.find?, jsonStr?,
      optStrJson, optPersonsJson, decodeOptStrField, decodeRatingField, decodeOptPersonsField,
      String.reduceEq, reduceIte, parseUuid_str, JArr.toList_ofList, Option.map_some,
      decodeList_map GenreInline.fromJson GenreInline.toJson GenreInline.fromJson_toJson_genre,
      decodeList_map PersonInline.fromJson PersonInline.toJson PersonInline.fromJson_toJson_person,
      Option.bind_eq_bind, Option.some_bind] <;>
    rfl

/-! ## Sort and query formatters (`src/utils/formatters.py`)

A sort spec is the tuple of single-key dicts the formatter builds, modelled as
a list of (field, direction) pairs.  A filter query is the
`{"bool": {"must": [...]}}` dict, modelled by the list of its `must` clauses.
Python truthiness checks on the parameters (`params.get(...)`) are preserved:
an absent parameter and an empty-string parameter are both falsy. -/

inductive SortDir where
  | asc
  | desc
  deriving DecidableEq

/-- Python's `s.startswith(p)`, on the characters of the strings. -/
def startswith (s p : String) : Bool :=
  p.toList.isPrefixOf s.toList

/-- `SortFormatter._get_sort_query`: `"-field"` means descending. -/
def SortFormatter.get_sort_query (sort_param : String) : List (String × SortDir) :=
  if startswith sort_param "-" then [(sort_param.drop 1, SortDir.desc)]
  else [(sort_param, SortDir.asc)]

/-- `SortFormatter.format`: the default (no — or falsy — user sort) is
`({"_score": "desc"}, {"id": "asc"})`. -/
def SortFormatter.format (sort : Option String) : List (String × SortDir) :=
  match sort with
  | some s =>
    if s = "" then [("_score", SortDir.desc), ("id", SortDir.asc)]
    else SortFormatter.get_sort_query s
  | none => [("_score", SortDir.desc), ("id", SortDir.asc)]

/-- A clause of the `bool.must` list: the fuzzy-match search dict or the
nested genre term dict. -/
inductive Clause where
  | search (field term : String)
  | genreFilter (genre_id : String)
  deriving DecidableEq

structure BoolQuery where
  must : List Clause
  deriving DecidableEq

/-- `QueryFormatter.format`: appends the search clause, then the genre clause,
and returns the query only when `must` is non-empty (`None` otherwise).
`genre_uuid` is stringified (`str(filter_param)`) at clause-building time, so
it enters as a string; an empty string is falsy and contributes nothing. -/
def QueryFormatter.format (search_query : Option (String × String))
    (genre_uuid : Option String) : Option BoolQuery :=
  let must :=
    (match search_query with
     | some (f, t) => [Clause.search f t]
     | none => []) ++
    (match genre_uuid with
     | some g => if g = "" then [] else [Clause.genreFilter g]
     | none => [])
  if must = [] then none else some ⟨must⟩

/-! ## Python `str(...)` rendering used by the cursor cache key

`FilmService._generate_record_key` builds the key from `str(sort)` and
`str(filter_query)` on the structures above (reprs are rendered for strings
without quote or escape characters, which covers every string the service
produces). -/

/-- A single-quote character (Python repr quotes). -/
def pyQuote : String := String.singleton (Char.ofNat 39)

/-- Python repr of a plain string. -/
def pyq (s : String) : String := pyQuote ++ s ++ pyQuote

def pyStrSortDir : SortDir → String
  | .asc => "asc"
  | .desc => "desc"

/-- `str` of one single-key sort dict. -/
def pyStrSortDict (d : String × SortDir) : String :=
  "\x7b" ++ pyq d.1 ++ ": " ++ pyq (pyStrSortDir d.2) ++ "\x7d"

/-- `str` of a Python tuple of rendered elements (one-tuples keep the
trailing comma). -/
def pyStrTuple (elems : List String) : String :=
  match elems with
  | [e] => "(" ++ e ++ ",)"
  | es => "(" ++ String.intercalate ", " es ++ ")"

def pyStrSortQuery (sq : List (String × SortDir)) : String :=
  pyStrTuple (sq.map pyStrSortDict)

def pyStrClause : Clause → String
  | .search f t =>
    "\x7b" ++ pyq "match" ++ ": \x7b" ++ pyq f ++ ": \x7b" ++ pyq "query" ++ ": " ++ pyq t
      ++ ", " ++ pyq "fuzziness" ++ ": " ++ pyq "auto" ++ "\x7d\x7d\x7d"
  | .genreFilter g =>
    "\x7b" ++ pyq "nested" ++ ": \x7b" ++ pyq "path" ++ ": " ++ pyq "genre" ++ ", "
      ++ pyq "query" ++ ": \x7b" ++ pyq "term" ++ ": \x7b" ++ pyq "genre.id" ++ ": " ++ pyq g
      ++ "\x7d\x7d\x7d\x7d"

/-- `str(filter_query)`: `str(None) = "None"`. -/
def pyStrQuery : Option BoolQuery → String
  | none => "None"
  | some q =>
    "\x7b" ++ pyq "bool" ++ ": \x7b" ++ pyq "must" ++ ": ["
      ++ String.intercalate ", " (q.must.map pyStrClause) ++ "]\x7d\x7d"

/-! ## The cache store and the search engine (external collaborators)

Redis holds raw bytes: either well-formed JSON bytes (everything this service
writes) or corrupt bytes on which deserialization raises.  The `movies` index
is modelled by the operations the service calls: lookup by id, and — for a
fixed (sort, filter) pair — the ordered list of matching documents served by
`search`, each hit carrying its `_source`, its `sort` position token and its
`_score`. -/

inductive CacheVal where
  | bytes (j : Json)
  | garbage
  deriving DecidableEq

/-- The Redis keyspace: `None` is an absent key. -/
def Store : Type := String → Option CacheVal

/-- `redis.set key value` (the TTL plays no role in the claims). -/
def Store.set (st : Store) (k : String) (v : CacheVal) : Store :=
  fun x => if x = k then some v else st x

/-- A hit of the `movies` index as returned by `elastic.search`. -/
structure Hit where
  source : Json
  sort : Json
  score : Rat
  deriving DecidableEq

/-- The engine's matching documents, in engine order, for a (sort, filter)
pair. -/
def PageEngine : Type := List (String × SortDir) → Option BoolQuery → List Hit

/-- The engine's `get(index="movies", id=...)`, returning the `_source`
document or not-found. -/
def MoviesIndex : Type := String → Option Json

/-- Python exceptions the service can raise. -/
inductive PyErr where
  | indexError
  | validationError
  | jsonDecodeError
  deriving DecidableEq

namespace FilmService

/-- `FilmService._generate_record_key`: `"movies/" + str(sort) + "/" +
str(record_number) + "/" + str(filter_query)`. -/
def generate_record_key (record_number : Int) (sort : List (String × SortDir))
    (filter_query : Option BoolQuery) : String :=
  "movies/" ++ (pyStrSortQuery sort ++ "/" ++ toString record_number ++ "/"
    ++ pyStrQuery filter_query)

/-- `FilmService._film_from_cache`: absent key is a miss;
`Film.model_validate_json` raises on corrupt bytes or a non-film payload. -/
def film_from_cache (st : Store) (film_uuid : String) : Except PyErr (Option Film) :=
  match st film_uuid with
  | none => .ok none
  | some (.bytes j) =>
    match Film.fromJson j with
    | some f => .ok (some f)
    | none => .error .validationError
  | some .garbage => .error .validationError

/-- `FilmService._put_film_to_cache`: `redis.set(str(film.uuid),
film.model_dump_json(), TTL)`. -/
def put_film_to_cache (st : Store) (film : Film) : Store :=
  st.set film.uuid.str (.bytes (Film.toJson film))

/-- `FilmService._get_film_from_elastic`: a `NotFoundError` from the engine is
caught and returned as `None`; `Film(**doc["_source"])` validates. -/
def get_film_from_elastic (es : MoviesIndex) (film_uuid : String) :
    Except PyErr (Option Film) :=
  match es film_uuid with
  | none => .ok none
  | some doc =>
    match Film.fromJson doc with
    | some f => .ok (some f)
    | none => .error .validationError

/-- `FilmService.get_by_uuid`: cache first, then the engine, caching a
successful fetch; `None` when the film exists nowhere. -/
def get_by_uuid (es : MoviesIndex) (st : Store) (film_uuid : String) :
    Except PyErr (Option Film × Store) :=
  match film_from_cache st film_uuid with
  | .error e => .error e
  | .ok (some film) => .ok (some film, st)
  | .ok none =>
    match get_film_from_elastic es film_uuid with
    | .error e => .error e
    | .ok none => .ok (none, st)
    | .ok (some film) => .ok (some film, put_film_to_cache st film)

/-- `FilmService._key_in_cache` (`redis.exists`). -/
def key_in_cache (st : Store) (key : String) : Bool :=
  (st key).isSome

/-- `FilmService._get_search_after_from_cache`: absent is `None`; otherwise
`orjson.loads`, which raises on corrupt bytes; loaded JSON `null` is the
Python value `None`. -/
def get_search_after_from_cache (st : Store) (key : String) :
    Except PyErr (Option Json) :=
  match st key with
  | none => .ok none
  | some (.bytes j) => .ok (if j = .null then none else some j)
  | some .garbage => .error .jsonDecodeError

/-- `FilmService._put_search_after_to_cache`: `redis.set(key,
orjson.dumps(value), TTL)`; `orjson.dumps(None)` is the JSON `null`. -/
def put_search_after_to_cache (st : Store) (key : String) (value : Option Json) : Store :=
  st.set key (.bytes (value.getD .null))

/-- `FilmService._get_search_after_from_elastic`: for `previous_record = -1`
no cursor is needed; otherwise a `from_=previous_record, size=1` search whose
single hit supplies the position token (`[_score]` when sorting by `_score`
alone, the hit's `sort` array otherwise).  `hits[0]` on an empty result
raises `IndexError`. -/
def get_search_after_from_elastic (eng : PageEngine) (previous_record : Int)
    (sort : List (String × SortDir)) (filter_ : Option BoolQuery) :
    Except PyErr (Option Json) :=
  if previous_record = -1 then .ok none
  else
    match ((eng sort filter_).drop previous_record.toNat).take 1 with
    | [] => .error .indexError
    | hit :: _ =>
      .ok (some (if sort = [("_score", SortDir.desc)]
                 then Json.arr (.cons (.num hit.score) .nil)
                 else hit.sort))

/-- `FilmService._search_after_films_from_elastic`: `size` hits strictly after
the cursor position (all matching hits from the start when the cursor is
`None`). -/
def search_after_films_from_elastic (eng : PageEngine) (size : Nat)
    (search_after : Option Json) (sort : List (String × SortDir))
    (filter_query : Option BoolQuery) : List Hit :=
  let docs : List Hit := eng sort filter_query
  let positioned : List Hit :=
    match search_after with
    | none => docs
    | some tok => (docs.dropWhile (fun h : Hit => h.sort ≠ tok)).drop 1
  positioned.take size

/-- `FilmService.get_page`.  Mirrors the source control flow: resolve the
previous record's cursor (cache, else engine — where a raised `IndexError`
returns the empty page), fetch the page, pre-warm the next boundary cursor
(`films_data[-1]` raises `IndexError` on an empty page), then map hits to
films. -/
def get_page (eng : PageEngine) (st : Store) (page_number size : Nat)
    (sort : Option String) (genre_uuid : Option String)
    (search_query : Option (String × String)) : Except PyErr (List Film × Store) :=
  let sort_query := SortFormatter.format sort
  let query := QueryFormatter.format search_query genre_uuid
  let previous_record_number : Int := ((page_number : Int) - 1) * (size : Int) - 1
  let previous_record_key := generate_record_key previous_record_number sort_query query
  let resolved : Except PyErr (Option (Option Json × Store)) :=
    if key_in_cache st previous_record_key then
      match get_search_after_from_cache st previous_record_key with
      | .error e => .error e
      | .ok sa => .ok (some (sa, st))
    else
      match get_search_after_from_elastic eng previous_record_number sort_query query with
      | .error .indexError => .ok none
      | .error e => .error e
      | .ok sa => .ok (some (sa, put_search_after_to_cache st previous_record_key sa))
  match resolved with
  | .error e => .error e
  | .ok none => .ok ([], st)
  | .ok (some (search_after, st1)) =>
    let films_data := search_after_films_from_elastic eng size search_after sort_query query
    let future_search_after_key :=
      generate_record_key (previous_record_number + size) sort_query query
    let prewarmed : Except PyErr Store :=
      if key_in_cache st1 future_search_after_key then .ok st1
      else
        match films_data.getLast? with
        | some lastHit =>
          .ok (put_search_after_to_cache st1 future_search_after_key (some lastHit.sort))
        | none => .error .indexError
    match prewarmed with
    | .error e => .error e
    | .ok st2 =>
      match decodeList Film.fromJson (films_data.map Hit.source) with
      | some films => .ok (films, st2)
      | none => .error .validationError

end FilmService

/-! ## The list endpoints (`src/api/v1/films.py`)

`films_all` and `search_films` each call the paginator and turn its records
into the response; the embedding takes the paginator's result as input and
models the response construction (`FilmShort(**film.model_dump())` keeps
`uuid`, `title` and `imdb_rating`; extra fields are ignored). -/

structure FilmShort where
  uuid : UUIDv
  title : String
  imdb_rating : Rat
  deriving DecidableEq

def FilmShort.ofFilm (f : Film) : FilmShort :=
  ⟨f.uuid, f.title, f.imdb_rating⟩

structure HTTPException where
  status_code : Nat
  detail : String
  deriving DecidableEq

structure PageLinks where
  first : Nat
  next : Nat
  prev : Option Nat
  deriving DecidableEq

structure PageResponse where
  id : Nat
  data : List FilmShort
  links : PageLinks
  deriving DecidableEq

/-- `films_all` from the paginator's records on: empty records raise
`HTTPException(404, "Films not found.")`, otherwise the JSON:API-ish response
is built (with a `prev` link only past page 1). -/
def films_all (records : List Film) (page_number : Nat) :
    Except HTTPException PageResponse :=
  if records.isEmpty then .error ⟨404, "Films not found."⟩
  else
    .ok { id := page_number,
          data := records.map FilmShort.ofFilm,
          links := { first := 1, next := page_number + 1,
                     prev := if page_number > 1 then some (page_number - 1) else none } }

/-- `search_films` builds its response with code identical to `films_all`
(the search term only affects the paginator call). -/
def search_films (records : List Film) (page_number : Nat) :
    Except HTTPException PageResponse :=
  if records.isEmpty then .error ⟨404, "Films not found."⟩
  else
    .ok { id := page_number,
          data := records.map FilmShort.ofFilm,
          links := { first := 1, next := page_number + 1,
                     prev := if page_number > 1 then some (page_number - 1) else none } }

/-! ## Concrete fixtures -/

/-- The empty Redis keyspace. -/
def emptyStore : Store := fun _ => none

def uuidA : UUIDv := ⟨"123e4567-e89b-42d3-a456-426614174000", by decide⟩

def uuidB : UUIDv := ⟨"8f2ab3c4-5d6e-47f8-9a0b-1c2d3e4f5a6b", by decide⟩

/-- A film document like the one in `tests/functional/src/test_search.py`. -/
def exampleFilm : Film :=
  { uuid := uuidA, title := "The Star", description := some "New World",
    imdb_rating := 17 / 2, genre := [⟨uuidB, "Action"⟩],
    actors := none, writers := none, directors := none }

/-- The engine hit serving `exampleFilm`, with its position token under the
default sort (`_score` value, then id). -/
def exampleHit : Hit :=
  { source := Film.toJson exampleFilm,
    sort := Json.arr (.cons (.num 2) (.cons (.str uuidA.str) .nil)),
    score := 2 }

/-- A `movies` index holding exactly one matching document. -/
def oneDocEngine : PageEngine := fun _ _ => [exampleHit]

/-- A `movies` index with no matching documents. -/
def emptyEngine : PageEngine := fun _ _ => []

/-- Id-lookup over the one-document index. -/
def exampleIndex : MoviesIndex :=
  fun s => if s = uuidA.str then some (Film.toJson exampleFilm) else none

/-- A cache whose every key holds bytes that fail deserialization. -/
def corruptAllStore : Store := fun _ => some CacheVal.garbage

/-- The cursor cache key `get_page` computes for boundary record
`record_number` under the user parameters (sort token, genre id, search
term): `_generate_record_key` applied to the formatters' output. -/
def record_key_for (sort : Option String) (genre_uuid : Option String)
    (search_query : Option (String × String)) (record_number : Int) : String :=
  FilmService.generate_record_key record_number (SortFormatter.format sort)
    (QueryFormatter.format search_query genre_uuid)

/-! ## Claims -/

/-- C1: requesting the page whose offset equals the number of matching
documents (`1` document, `page_number = 2`, `size = 1`, so `offset = 1`) on a
cold cache does not return an empty sequence — `get_page` raises `IndexError`
(from `films_data[-1]` in the pre-warm step), contradicting the boundary
policy that any `offset ≥ total_matching_documents` yields an empty sequence
without error.  Only strictly beyond that boundary (`page_number = 3`, so
`offset = 2 > 1`) does the claimed empty-sequence behaviour hold. -/
theorem get_page_boundary_raises_indexerror :
    FilmService.get_page oneDocEngine emptyStore 2 1 none none none =
        .error .indexError ∧
      FilmService.get_page oneDocEngine emptyStore 3 1 none none none =
        .ok ([], emptyStore) := by
  exact ⟨rfl, rfl⟩

/-- C3: on an empty fetched page (no matching documents, `page_number = 1`)
with the next-page boundary key not cached, the pre-warm step is not skipped:
`films_data[-1]["sort"]` raises `IndexError`, contradicting "when the fetched
page is empty, pre-warming is skipped entirely". -/
theorem get_page_empty_page_prewarm_raises :
    FilmService.get_page emptyEngine emptyStore 1 10 none none none =
      .error .indexError := by
  rfl

/-- C2: the default sort spec is relevance-descending then id-ascending, but
when a caller supplies a sort field alone no unique tie-break field is
appended — the effective spec is the user's single (possibly non-unique)
field, contradicting "a unique tie-break field is always appended". -/
theorem sort_formatter_no_tiebreak_appended :
    SortFormatter.format none = [("_score", SortDir.desc), ("id", SortDir.asc)] ∧
    SortFormatter.format (some "title") = [("title", SortDir.asc)] ∧
    SortFormatter.format (some "-imdb_rating") = [("imdb_rating", SortDir.desc)] := by
  refine ⟨rfl, ?_, ?_⟩ <;> rfl

/-- C4: the cursor cache key is a pure function of (sort token, category id,
search term, record offset): two calls with identical parameters produce the
byte-identical key, independent of any cache or engine state. -/
theorem cursor_cache_key_deterministic
    (s1 s2 g1 g2 : Option String) (q1 q2 : Option (String × String)) (o1 o2 : Int)
    (hs : s1 = s2) (hg : g1 = g2) (hq : q1 = q2) (ho : o1 = o2) :
    record_key_for s1 g1 q1 o1 = record_key_for s2 g2 q2 o2 := by
  rw [hs, hg, hq, ho]

theorem cursor_cache_key_deterministic_witness :
    record_key_for (some "-imdb_rating") (some "g") none 9 =
      record_key_for (some "-imdb_rating") (some "g") none 9 :=
  cursor_cache_key_deterministic (some "-imdb_rating") (some "-imdb_rating")
    (some "g") (some "g") none none 9 9 rfl rfl rfl rfl

/-- C5: when the id is not cached and the engine reports not-found,
`get_by_uuid` returns `None` without error and leaves the cache untouched, so
the miss is not cached and a repeated lookup hits the engine again. -/
theorem get_by_uuid_engine_not_found_absent
    (es : MoviesIndex) (st : Store) (film_uuid : String)
    (hc : st film_uuid = none) (he : es film_uuid = none) :
    FilmService.get_by_uuid es st film_uuid = .ok (none, st) := by
  simp [FilmService.get_by_uuid, FilmService.film_from_cache,
    FilmService.get_film_from_elastic, hc, he]

theorem get_by_uuid_engine_not_found_absent_witness :
    FilmService.get_by_uuid (fun _ => none) emptyStore "x" = .ok (none, emptyStore) :=
  get_by_uuid_engine_not_found_absent (fun _ => none) emptyStore "x" rfl rfl

/-- C6 counterexample: with corrupt bytes cached under the film's id (and
under a cursor key) while the engine still holds the document, the lookup
does not fall back to the engine: the entity path raises `ValidationError`
and the cursor path raises a JSON decode error, so a deserialization failure
is propagated, not treated as a cache miss. -/
theorem cache_corruption_not_treated_as_miss_cex :
    FilmService.get_by_uuid exampleIndex corruptAllStore uuidA.str =
        .error .validationError ∧
      FilmService.get_search_after_from_cache corruptAllStore
        (record_key_for none none none 9) = .error .jsonDecodeError := by
  exact ⟨rfl, rfl⟩

/-- C6 (amended): a cached payload that fails to deserialize raises — the
deserialization error propagates to the caller for both the entity lookup and
the cursor lookup; only an absent key is treated as a cache miss. -/
theorem cache_corruption_error_propagates
    (es : MoviesIndex) (st : Store) (u k : String)
    (hu : st u = some .garbage) (hk : st k = some .garbage) :
    FilmService.get_by_uuid es st u = .error .validationError ∧
      FilmService.get_search_after_from_cache st k = .error .jsonDecodeError := by
  constructor
  · simp [FilmService.get_by_uuid, FilmService.film_from_cache, hu]
  · simp [FilmService.get_search_after_from_cache, hk]

theorem cache_corruption_error_propagates_witness :
    FilmService.get_by_uuid exampleIndex corruptAllStore "k1" = .error .validationError ∧
      FilmService.get_search_after_from_cache corruptAllStore "k2" =
        .error .jsonDecodeError :=
  cache_corruption_error_propagates exampleIndex corruptAllStore "k1" "k2" rfl rfl

/-- C7: the filter formatter puts every supplied criterion into the `bool.must`
conjunction — search clause then genre clause — and yields `None` (no filter)
when no truthy criterion is supplied, never an empty-but-present predicate. -/
theorem query_formatter_and_combination :
    QueryFormatter.format none none = none ∧
    (∀ f t, QueryFormatter.format (some (f, t)) none = some ⟨[Clause.search f t]⟩) ∧
    (∀ g, g ≠ "" → QueryFormatter.format none (some g) =
      some ⟨[Clause.genreFilter g]⟩) ∧
    (∀ f t g, g ≠ "" → QueryFormatter.format (some (f, t)) (some g) =
      some ⟨[Clause.search f t, Clause.genreFilter g]⟩) := by
  refine ⟨rfl, fun f t => rfl, fun g hg => ?_, fun f t g hg => ?_⟩ <;>
    simp [QueryFormatter.format, hg]

theorem query_formatter_and_combination_witness :
    QueryFormatter.format (some ("title", "star")) (some "genre-1") =
      some ⟨[Clause.search "title" "star", Clause.genreFilter "genre-1"]⟩ :=
  query_formatter_and_combination.2.2.2 "title" "star" "genre-1" (by decide)

/-- C9: whenever the paginator hands back an empty record list, both list
endpoints raise `HTTPException(404, "Films not found.")` instead of returning
an empty success page. -/
theorem list_endpoints_404_on_empty_page (page_number : Nat) :
    films_all [] page_number = .error ⟨404, "Films not found."⟩ ∧
      search_films [] page_number = .error ⟨404, "Films not found."⟩ :=
  ⟨rfl, rfl⟩

theorem list_endpoints_404_on_empty_page_witness :
    films_all [] 1 = .error ⟨404, "Films not found."⟩ ∧
      search_films [] 1 = .error ⟨404, "Films not found."⟩ :=
  list_endpoints_404_on_empty_page 1

/-- C8: serialization round-trips (validating a dumped film yields the film
back), hence `get_by_uuid` returns identical content from a cold cache (engine
fetch, then cache write) and from the warm cache that write produced. -/
theorem entity_cache_aside_roundtrip :
    (∀ f : Film, Film.fromJson (Film.toJson f) = some f) ∧
    (∀ (es : MoviesIndex) (st : Store) (doc : Json) (f : Film),
      st f.uuid.str = none → es f.uuid.str = some doc → Film.fromJson doc = some f →
      ∃ st1, FilmService.get_by_uuid es st f.uuid.str = .ok (some f, st1) ∧
        FilmService.get_by_uuid es st1 f.uuid.str = .ok (some f, st1)) := by
  refine ⟨Film.fromJson_toJson, ?_⟩
  intro es st doc f hc he hf
  refine ⟨FilmService.put_film_to_cache st f, ?_, ?_⟩
  · simp [FilmService.get_by_uuid, FilmService.film_from_cache,
      FilmService.get_film_from_elastic, hc, he, hf]
  · have hw : FilmService.put_film_to_cache st f f.uuid.str =
        some (.bytes (Film.toJson f)) := by
      simp [FilmService.put_film_to_cache, Store.set]
    simp [FilmService.get_by_uuid, FilmService.film_from_cache, hw,
      Film.fromJson_toJson]

theorem entity_cache_aside_roundtrip_witness :
    ∃ st1, FilmService.get_by_uuid exampleIndex emptyStore exampleFilm.uuid.str =
        .ok (some exampleFilm, st1) ∧
      FilmService.get_by_uuid exampleIndex st1 exampleFilm.uuid.str =
        .ok (some exampleFilm, st1) :=
  entity_cache_aside_roundtrip.2 exampleIndex emptyStore (Film.toJson exampleFilm)
    exampleFilm rfl rfl (by rfl)

/-- Any string of the form `"movies/" ++ r` starts with `"movies/"`. -/
theorem startswith_movies_append (r : String) :
    startswith ("movies/" ++ r) "movies/" = true := by
  simp [startswith, String.toList, String.data_append, List.isPrefixOf_iff_prefix,
    List.prefix_append]

/-- No canonical UUID string starts with `"movies/"`: its first character is a
hex digit and `'m'` is not one. -/
theorem uuid_not_startswith_movies (u : UUIDv) :
    startswith u.str "movies/" = false := by
  cases hsw : startswith u.str "movies/" with
  | false => rfl
  | true =>
    exfalso
    unfold startswith at hsw
    rw [List.isPrefixOf_iff_prefix] at hsw
    obtain ⟨t, ht⟩ := hsw
    have ht' : u.str.toList = 'm' :: ("ovies/".toList ++ t) := by
      rw [← ht]; rfl
    have hv := u.property
    unfold uuidCanonical at hv
    rw [Bool.and_eq_true] at hv
    have hall := hv.2
    rw [List.all_eq_true] at hall
    have h0 := hall 0 (by decide)
    simp only [UUIDv.str] at ht'
    rw [if_neg (by decide), if_neg (by decide)] at h0
    rw [ht'] at h0
    simp only [List.getD_cons_zero] at h0
    exact absurd h0 (by decide)

/-- C10: cursor cache keys and entity cache keys can never collide: every key
`_generate_record_key` produces starts with the literal `"movies/"`, every
entity payload is stored under the bare canonical string of its UUID
(`_put_film_to_cache` uses `str(film.uuid)` as the key), and no UUID string
starts with `"movies/"`. -/
theorem cursor_and_entity_cache_keys_disjoint
    (n : Int) (sq : List (String × SortDir)) (fq : Option BoolQuery)
    (f : Film) (st : Store) :
    startswith (FilmService.generate_record_key n sq fq) "movies/" = true ∧
    startswith f.uuid.str "movies/" = false ∧
    FilmService.generate_record_key n sq fq ≠ f.uuid.str ∧
    FilmService.put_film_to_cache st f =
      Store.set st f.uuid.str (.bytes (Film.toJson f)) := by
  have h1 : startswith (FilmService.generate_record_key n sq fq) "movies/" = true :=
    startswith_movies_append _
  have h2 := uuid_not_startswith_movies f.uuid
  refine ⟨h1, h2, ?_, rfl⟩
  intro heq
  rw [heq] at h1
  rw [h1] at h2
  exact Bool.noConfusion h2

theorem cursor_and_entity_cache_keys_disjoint_witness :
    startswith (FilmService.generate_record_key 9 (SortFormatter.format none) none)
        "movies/" = true ∧
      startswith exampleFilm.uuid.str "movies/" = false ∧
      FilmService.generate_record_key 9 (SortFormatter.format none) none ≠
        exampleFilm.uuid.str ∧
      FilmService.put_film_to_cache emptyStore exampleFilm =
        Store.set emptyStore exampleFilm.uuid.str (.bytes (Film.toJson exampleFilm)) :=
  cursor_and_entity_cache_keys_disjoint 9 (SortFormatter.format none) none
    exampleFilm emptyStore
